import Mathlib

/-!
Verification development for the invoice-processing backend
(`backend/ai_agent.py`, `backend/crud.py`, `backend/schemas.py`,
`backend/models.py`).

Shallow embedding conventions:
* Calendar dates are modelled as `Int` day numbers (date subtraction in the
  source, `(d1 - d2).days`, becomes `Int` subtraction; `date + timedelta(days=n)`
  becomes `+ n`).
* Python floats are modelled as `ℚ`.
* Optional fields (`Optional[...]` / nullable columns) are `Option _`.
* External effects (the LLM call, Pydantic validation of the raw JSON values,
  database persistence) are modelled as explicit oracle inputs describing the
  outcome the external system produced; the surrounding control flow is
  transcribed from the source.
-/

set_option autoImplicit false

namespace Accountant

/-- Python `or` on an optional string: `None` and `""` are falsy. -/
def pyOrOptStr (o : Option String) (d : String) : String :=
  match o with
  | none => d
  | some s => if s = "" then d else s

/-- Python `or` on an optional date (`datetime.date` values are always truthy,
so only `None` falls through to the default). -/
def pyOrOptInt (o : Option Int) (d : Int) : Int :=
  o.getD d

/-- Python truthiness of an `Optional[float]`: falsy iff `None` or `0.0`.
Used by the guard `not invoice_model.totalAmount` in
`create_transaction_schema_from_invoice` (ai_agent.py line 277). -/
def optAmountTruthy : Option ℚ → Bool
  | none => false
  | some q => decide (q ≠ 0)

/-- Auxiliary for `strContains`: does the first character list occur at the
head of the second one. -/
def chlStarts : List Char → List Char → Bool
  | [], _ => true
  | _ :: _, [] => false
  | a :: as, b :: bs => a == b && chlStarts as bs

/-- Auxiliary for `strContains`: does the first character list occur
contiguously anywhere inside the second one. -/
def chlHas (needle : List Char) : List Char → Bool
  | [] => needle.isEmpty
  | b :: bs => chlStarts needle (b :: bs) || chlHas needle bs

/-- Python's substring test `needle in hay` on strings. -/
def strContains (hay needle : String) : Bool :=
  chlHas needle.toList hay.toList

/-- `str.lower()` restricted to ASCII (the range the GL keyword table and the
spec's examples exercise), written over the character list so it evaluates
inside the kernel. -/
def strLower (s : String) : String :=
  String.mk (s.toList.map Char.toLower)

/-- `schemas.LineItemBase` / `schemas.LineItemCreate` (schemas.py lines 7-14). -/
structure LineItem where
  description : Option String := some "N/A"
  quantity : Option ℚ := some 1
  price : Option ℚ := some 0
  lineTotal : Option ℚ := some 0
deriving DecidableEq, Repr

/-- `schemas.InvoiceDataCreate` (schemas.py lines 24-44), also covering the
persisted `models.Invoice` column values it is copied into by
`crud.create_invoice` (`models.Invoice(**invoice.dict())`).  The schema has
NO `lineItems` field: only `schemas.InvoiceData` (the read model) carries a
`lineItems` list, populated from the (never written) `line_items`
relationship.  `id` models the DB-assigned primary key. -/
structure Invoice where
  id : String := ""
  vendor : Option String := none
  invoiceDate : Option Int := none
  dueDate : Option Int := none
  invoiceNumber : Option String := none
  subtotal : Option ℚ := none
  tax : Option ℚ := none
  totalAmount : Option ℚ := none
  currency : Option String := some "USD"
  extractedText : Option String := none
  processingStatus : String := "Pending"
  confidenceScore : Option ℚ := none
  needsReview : Bool := false
  errorMessage : Option String := none
deriving DecidableEq, Repr

/-- `schemas.TransactionCreate` (schemas.py lines 54-67). -/
structure TransactionCreate where
  invoiceId : String
  transactionDate : Int
  vendor : String
  description : Option String := none
  amount : ℚ
  currency : String := "USD"
  paymentMethod : Option String := none
  glAccount : String := "Uncategorized Expense"
  entryType : String
  tags : List String := []
deriving DecidableEq, Repr

/-- The `extractedData` object delivered by the LLM after Pydantic has
successfully validated/parsed all raw JSON values (dates parsed from
"YYYY-MM-DD" strings, numbers checked).  `lineItems` is present here — the
AI strategy is prompted to return them — but `Invoice`
(= `InvoiceDataCreate`) has no such field, so they are dropped when the
schema object is built. -/
structure ExtractedFields where
  vendor : Option String := none
  invoiceDate : Option Int := none
  dueDate : Option Int := none
  invoiceNumber : Option String := none
  lineItems : List LineItem := []
  subtotal : Option ℚ := none
  tax : Option ℚ := none
  totalAmount : Option ℚ := none
  currency : Option String := some "USD"
deriving DecidableEq, Repr

/-- Outcome of `schemas.InvoiceDataCreate(**extracted_data)` (ai_agent.py
lines 220-245): either the typed field values, or a `ValidationError`
carrying its message. -/
inductive PydanticOutcome where
  | valid (fields : ExtractedFields)
  | invalid (msg : String)
deriving DecidableEq, Repr

/-- Shape of the Gemini response after the response-handling code in
`extract_and_review_invoice_data_with_gemini` has inspected it
(ai_agent.py lines 176-270):
* `apiError` — the `model.generate_content` call raised;
* `decodeError` — `json.loads` raised `JSONDecodeError`;
* `missingKeys` — the decoded JSON lacks `extractedData` or `needsReview`;
* `ok nr rr validation` — well-formed response with `needsReview = nr`;
  `rr = none` models the `reviewReason` key being absent (so
  `gemini_result.get` falls back to its default), `rr = some none` models an
  explicit JSON `null`, `rr = some (some s)` a string value. -/
inductive GeminiParse where
  | apiError
  | decodeError
  | missingKeys
  | ok (needsReview : Bool) (reviewReason : Option (Option String))
      (validation : PydanticOutcome)
deriving DecidableEq, Repr

/-- `extract_and_review_invoice_data_with_gemini` (ai_agent.py lines 122-270),
with the LLM/parse outcome supplied as the `resp` oracle and the presence of
`GOOGLE_API_KEY` as `hasApiKey`. -/
def extract_and_review_invoice_data_with_gemini (hasApiKey : Bool)
    (text : String) (resp : GeminiParse) : Invoice :=
  if hasApiKey = false then
    { extractedText := some text, processingStatus := "Error",
      errorMessage := some "AI Service Error: API key not configured." }
  else
    match resp with
    | .apiError =>
      { extractedText := some text, processingStatus := "Error",
        errorMessage := some "AI Service Error: Communication failed." }
    | .decodeError =>
      { extractedText := some text, processingStatus := "Error",
        errorMessage := some "AI Service Error: Could not parse AI response." }
    | .missingKeys =>
      { extractedText := some text, processingStatus := "Error",
        errorMessage := some "AI Service Error: Invalid response structure from AI." }
    | .ok nr rr validation =>
      match validation with
      | .invalid msg =>
        { extractedText := some text, processingStatus := "Error",
          errorMessage := some ("Data Validation Error after AI processing: " ++ msg),
          needsReview := true }
      | .valid f =>
        { vendor := f.vendor, invoiceDate := f.invoiceDate, dueDate := f.dueDate,
          invoiceNumber := f.invoiceNumber, subtotal := f.subtotal, tax := f.tax,
          totalAmount := f.totalAmount, currency := f.currency,
          extractedText := some text,
          processingStatus := if nr then "Needs Review" else "Processed",
          confidenceScore := none,
          needsReview := nr,
          errorMessage :=
            if nr then
              match rr with
              | none => some "Reason not provided by AI."
              | some v => v
            else none }

/-- GL-account determination inside `create_transaction_schema_from_invoice`
(ai_agent.py lines 281-289): `vendor_lower = (invoice_model.vendor or
"").lower()` followed by the chain of substring tests. -/
def glAccountFor (vendor : Option String) : String :=
  let vl := strLower (pyOrOptStr vendor "")
  if strContains vl "software" || strContains vl "saas" || strContains vl "aws"
      || strContains vl "google cloud" then
    "Software & Subscriptions"
  else if strContains vl "marketing" || strContains vl "advertising" then
    "Marketing & Advertising"
  else if strContains vl "office supplies" || strContains vl "staples" then
    "Office Supplies"
  else
    "Uncategorized Expense"

/-- `create_transaction_schema_from_invoice` (ai_agent.py lines 274-304).
`today` stands for `date.today()`.  The guard is
`if invoice_model.processingStatus == "Error" or not invoice_model.totalAmount`
with Python truthiness on the optional float. -/
def create_transaction_schema_from_invoice (today : Int) (inv : Invoice) :
    Option TransactionCreate :=
  if inv.processingStatus = "Error" ∨ optAmountTruthy inv.totalAmount = false then
    none
  else
    some
      { invoiceId := inv.id,
        transactionDate := pyOrOptInt inv.invoiceDate today,
        vendor := pyOrOptStr inv.vendor "Unknown Vendor",
        description := some ("Invoice " ++ pyOrOptStr inv.invoiceNumber "N/A"),
        amount := inv.totalAmount.getD 0,
        currency := pyOrOptStr inv.currency "USD",
        glAccount := glAccountFor inv.vendor,
        entryType := "Debit",
        tags := [],
        paymentMethod := none }

/-- Outcome of `crud.create_transaction` for this invoice: success, or a
raised exception (e.g. the UNIQUE constraint on `Transaction.invoiceId`,
models.py line 53) with its message. -/
inductive PersistOutcome where
  | ok
  | fail (msg : String)
deriving DecidableEq, Repr

/-- Observable outcome of one `/process` request: the final stored invoice
record, the persisted ledger entry if any, the persisted line items (no code
path ever writes any), and whether the extraction strategy was invoked. -/
structure ProcessResult where
  invoice : Invoice
  transaction : Option TransactionCreate
  persistedLineItems : List LineItem
  extractionInvoked : Bool
deriving DecidableEq, Repr

/-- `process_invoice_file` (ai_agent.py lines 307-384) from the point where
the OCR text is available: the empty-text short circuit (lines 332-340), the
Gemini extraction call, invoice persistence, and the conditional transaction
creation with its failure handler (lines 352-366).  `ocrText` is the
(already stripped) text produced by `perform_ocr_easyocr`; `txPersist` is the
outcome `crud.create_transaction` would have. -/
def process_invoice_file (today : Int) (ocrText : String) (hasApiKey : Bool)
    (resp : GeminiParse) (txPersist : PersistOutcome) : ProcessResult :=
  if ocrText = "" then
    { invoice := { processingStatus := "Error",
                   errorMessage := some "OCR Error: No text could be extracted." },
      transaction := none, persistedLineItems := [], extractionInvoked := false }
  else
    let inv := extract_and_review_invoice_data_with_gemini hasApiKey ocrText resp
    if inv.processingStatus = "Processed" then
      match create_transaction_schema_from_invoice today inv with
      | some t =>
        match txPersist with
        | .ok =>
          { invoice := inv, transaction := some t,
            persistedLineItems := [], extractionInvoked := true }
        | .fail msg =>
          let demoted : Invoice :=
            { inv with
              processingStatus := "Error",
              errorMessage := some ("Transaction Creation Error: " ++ msg) }
          { invoice := demoted, transaction := none,
            persistedLineItems := [], extractionInvoked := true }
      | none =>
        { invoice := inv, transaction := none,
          persistedLineItems := [], extractionInvoked := true }
    else
      { invoice := inv, transaction := none,
        persistedLineItems := [], extractionInvoked := true }

/-- A persisted `models.Transaction` row as read back by the reporting and
forecasting endpoints (only the columns they use). -/
structure TxnRec where
  vendor : String
  transactionDate : Int
  amount : ℚ
  glAccount : String
deriving DecidableEq, Repr

/-- One `{"date": ..., "amount": ...}` element of a `potential_recurring`
vendor bucket (ai_agent.py line 547). -/
structure DatedAmount where
  date : Int
  amount : ℚ
deriving DecidableEq, Repr

/-- A `projected_outflows` element (ai_agent.py lines 560-563). -/
structure ForecastEvent where
  date : Int
  vendor : String
  amount : ℚ
  type : String
deriving DecidableEq, Repr

/-- Insert an element behind every entry with date ≤ its own: the stable
ascending insertion step underlying `txns.sort(key=lambda x: x['date'])`. -/
def insertDA (e : DatedAmount) : List DatedAmount → List DatedAmount
  | [] => [e]
  | x :: xs => if x.date ≤ e.date then x :: insertDA e xs else e :: x :: xs

/-- Stable ascending sort by date, as `list.sort(key=lambda x: x['date'])`. -/
def sortByDate (l : List DatedAmount) : List DatedAmount :=
  l.foldl (fun acc e => insertDA e acc) []

/-- `defaultdict(list)` append step: add one dated amount to the bucket of
`v`, creating the bucket at the end if `v` is a new key. -/
def insertGroup (v : String) (e : DatedAmount) :
    List (String × List DatedAmount) → List (String × List DatedAmount)
  | [] => [(v, [e])]
  | (w, es) :: rest =>
    if v = w then (w, es ++ [e]) :: rest else (w, es) :: insertGroup v e rest

/-- The `potential_recurring` map of `get_cashflow_forecast_endpoint`
(ai_agent.py lines 544-547) built from an already-filtered transaction list:
buckets keyed by vendor, in first-appearance order, each bucket in input
order. -/
def groupByVendor (l : List TxnRec) : List (String × List DatedAmount) :=
  l.foldl (fun acc t => insertGroup t.vendor ⟨t.transactionDate, t.amount⟩ acc) []

/-- The transactions feeding `potential_recurring`: those returned by
`crud.get_transactions_by_date_range(db, today - 60 days, today)` whose
`glAccount` is not "Revenue" (ai_agent.py lines 539-547). -/
def nonRevenueRecent (today : Int) (txns : List TxnRec) : List TxnRec :=
  (txns.filter fun t =>
      decide (today - 60 ≤ t.transactionDate ∧ t.transactionDate ≤ today)).filter
    fun t => decide (t.glAccount ≠ "Revenue")

/-- Body of the per-vendor recurrence loop (ai_agent.py lines 551-563):
sort the bucket by date, read the two most recent entries, and emit the
projected date and amount when the spacing and relative-amount tests pass and
the projection lands inside the forecast window. -/
def vendorProjection (forecastEnd : Int) (txns : List DatedAmount) :
    Option (Int × ℚ) :=
  if txns.length > 1 then
    match (sortByDate txns).reverse with
    | t1 :: t2 :: _ =>
      if 25 ≤ t1.date - t2.date ∧ t1.date - t2.date ≤ 35 ∧
          |t1.amount - t2.amount| / max (max t1.amount t2.amount) 1 < 1 / 10 then
        if t1.date + (t1.date - t2.date) ≤ forecastEnd then
          some (t1.date + (t1.date - t2.date), t1.amount)
        else none
      else none
    | _ => none
  else none

/-- Wrap a vendor bucket's projection into the emitted event dictionary
(`type` "Projected Recurring Expense"). -/
def recurringEventFrom (forecastEnd : Int) (p : String × List DatedAmount) :
    Option ForecastEvent :=
  (vendorProjection forecastEnd p.2).map fun da =>
    { date := da.1, vendor := p.1, amount := da.2,
      type := "Projected Recurring Expense" }

/-- The `projected_outflows` list of `get_cashflow_forecast_endpoint`
(ai_agent.py lines 549-563): exactly the events of type
"Projected Recurring Expense" in the returned forecast (the AP/AR events
merged in later carry different `type` strings). -/
def projectedOutflows (today daysAhead : Int) (txns : List TxnRec) :
    List ForecastEvent :=
  (groupByVendor (nonRevenueRecent today txns)).filterMap
    (recurringEventFrom (today + daysAhead))

/-- A `models.Budget` row (models.py lines 71-78). -/
structure BudgetRec where
  category : String
  periodType : String := "monthly"
  periodValue : String := ""
  amount : ℚ
deriving DecidableEq, Repr

/-- Python dict insertion: overwrite the value if the key exists, else append
the pair. -/
def dictInsert (k : String) (v : ℚ) :
    List (String × ℚ) → List (String × ℚ)
  | [] => [(k, v)]
  | (k', v') :: rest =>
    if k = k' then (k, v) :: rest else (k', v') :: dictInsert k v rest

/-- Build a Python dict from a pair list (later duplicates overwrite), as the
comprehension `{b.category: b.amount for b in budgets_list}`. -/
def dictOf (l : List (String × ℚ)) : List (String × ℚ) :=
  l.foldl (fun d kv => dictInsert kv.1 kv.2 d) []

/-- SQL `SUM ... GROUP BY` accumulation step: add `v` to the total of key `k`,
creating the key if absent. -/
def addToKey (k : String) (v : ℚ) :
    List (String × ℚ) → List (String × ℚ)
  | [] => [(k, v)]
  | (k', v') :: rest =>
    if k = k' then (k', v' + v) :: rest else (k', v') :: addToKey k v rest

/-- Group a (key, value) list by key, summing values. -/
def sumByKey (l : List (String × ℚ)) : List (String × ℚ) :=
  l.foldl (fun d kv => addToKey kv.1 kv.2 d) []

/-- `crud.get_spending_by_category_for_period` (crud.py lines 113-131):
total transaction amount per `glAccount` over the inclusive date range
`start_date ≤ transactionDate ≤ end_date`. -/
def get_spending_by_category_for_period (txns : List TxnRec)
    (startD endD : Int) : List (String × ℚ) :=
  sumByKey
    ((txns.filter fun t =>
        decide (startD ≤ t.transactionDate ∧ t.transactionDate ≤ endD)).map
      fun t => (t.glAccount, t.amount))

/-- Round-half-to-even to an integer, as Python's builtin `round` on an exact
value. -/
def roundHalfEven (q : ℚ) : ℤ :=
  if q - ⌊q⌋ < 1 / 2 then ⌊q⌋
  else if 1 / 2 < q - ⌊q⌋ then ⌊q⌋ + 1
  else if 2 ∣ ⌊q⌋ then ⌊q⌋ else ⌊q⌋ + 1

/-- Python's `round(x, 2)`. -/
def round2 (q : ℚ) : ℚ :=
  (roundHalfEven (q * 100) : ℚ) / 100

/-- One value of the `report` dict in `get_budget_report_endpoint`
(ai_agent.py lines 458-462). -/
structure ReportRow where
  budget : Option ℚ
  actual : ℚ
  variance : ℚ
deriving DecidableEq, Repr

/-- The JSON object returned by `get_budget_report_endpoint`: the report
mapping plus the optional informational message of the no-budget case. -/
structure BudgetReportOutput where
  report : List (String × ReportRow)
  message : Option String
deriving DecidableEq, Repr

/-- Loop body of `for category in all_categories` (ai_agent.py lines
454-462): `budget_amount = relevant_budgets.get(category)`,
`spent_amount = actual_spending.get(category, 0.0)`,
`variance = (budget_amount - spent_amount) if budget_amount is not None else
-spent_amount`, with actual and variance rounded to 2 decimals. -/
def budgetReportRow (relevant spending : List (String × ℚ)) (c : String) :
    ReportRow :=
  { budget := relevant.lookup c,
    actual := round2 ((spending.lookup c).getD 0),
    variance := round2
      (match relevant.lookup c with
       | some b => b - (spending.lookup c).getD 0
       | none => -((spending.lookup c).getD 0)) }

/-- `get_budget_report_endpoint` (ai_agent.py lines 427-465) with the period's
parsed inclusive date range supplied as `startD`/`endD` and the stored rows as
lists.  `relevant_budgets` is the dict comprehension over the period's
budgets; an empty dict short-circuits to an empty report with the
informational message.  The category set iterates the union of budget and
actual-spend keys (Python set order is unspecified; only the mapping is
meaningful). -/
def get_budget_report_endpoint (budgets : List BudgetRec) (txns : List TxnRec)
    (startD endD : Int) : BudgetReportOutput :=
  let relevant := dictOf (budgets.map fun b => (b.category, b.amount))
  if relevant = [] then
    { report := [], message := some "No budgets found for this period." }
  else
    let spending := get_spending_by_category_for_period txns startD endD
    let cats := (relevant.map Prod.fst ++ spending.map Prod.fst).dedup
    { report := cats.map fun c => (c, budgetReportRow relevant spending c),
      message := none }

/-- Modelled from the spec: the rule-based fallback extraction strategy
(spec §4.3) is not present under `src/` — only the AI-assisted strategy is.
Following the spec's words, the strategy's field searches produce optional
values for invoice number, invoice date, due date, total amount and vendor;
this count is the number of the four key fields
{invoiceNumber, invoiceDate, totalAmount, vendor} that were found. -/
def foundCount (invoiceNumber : Option String) (invoiceDate : Option Int)
    (totalAmount : Option ℚ) (vendor : Option String) : ℕ :=
  (if invoiceNumber.isSome then 1 else 0) + (if invoiceDate.isSome then 1 else 0) +
    (if totalAmount.isSome then 1 else 0) + (if vendor.isSome then 1 else 0)

/-- The fields of the ExtractionResult produced by the rule-based fallback
strategy that the spec constrains. -/
structure RuleBasedExtraction where
  invoiceNumber : Option String
  invoiceDate : Option Int
  dueDate : Option Int
  totalAmount : Option ℚ
  vendor : Option String
  lineItems : List LineItem
  subtotal : Option ℚ
  tax : Option ℚ
  needsReview : Bool
  confidenceScore : ℚ
deriving DecidableEq, Repr

/-- Modelled from the spec: the rule-based fallback strategy (spec §4.3),
parameterized by the outcomes of its per-field pattern searches (the patterns
themselves are not specified).  Line items, subtotal and tax are never
extracted; `needsReview` is unconditionally true;
`confidenceScore = (count of the four key fields found) / 4`, and a score
below 0.75 (redundantly) reaffirms `needsReview = true`. -/
def ruleBasedExtract (invoiceNumber : Option String)
    (invoiceDate dueDate : Option Int) (totalAmount : Option ℚ)
    (vendor : Option String) : RuleBasedExtraction :=
  let score : ℚ := (foundCount invoiceNumber invoiceDate totalAmount vendor : ℚ) / 4
  { invoiceNumber := invoiceNumber, invoiceDate := invoiceDate,
    dueDate := dueDate, totalAmount := totalAmount, vendor := vendor,
    lineItems := [], subtotal := none, tax := none,
    needsReview := if score < 3 / 4 then true else true,
    confidenceScore := score }

lemma length_insertDA (e : DatedAmount) (l : List DatedAmount) :
    (insertDA e l).length = l.length + 1 := by
  induction l with
  | nil => rfl
  | cons x xs ih => by_cases h : x.date ≤ e.date <;> simp [insertDA, h, ih]

lemma length_sortByDate_aux (l : List DatedAmount) :
    ∀ acc : List DatedAmount,
      (l.foldl (fun acc e => insertDA e acc) acc).length = acc.length + l.length := by
  induction l with
  | nil => intro acc; simp
  | cons x xs ih =>
    intro acc
    simp only [List.foldl_cons]
    rw [ih (insertDA x acc), length_insertDA, List.length_cons]
    omega

lemma length_sortByDate (l : List DatedAmount) :
    (sortByDate l).length = l.length := by
  rw [sortByDate, length_sortByDate_aux]
  simp

/-- Evaluation of the per-vendor recurrence body on a bucket whose sorted
form ends with `t2` then (most recent) `t1`. -/
lemma vendorProjection_eval (forecastEnd : Int) (g : List DatedAmount)
    (t1 t2 : DatedAmount) (rest : List DatedAmount)
    (hsort : (sortByDate g).reverse = t1 :: t2 :: rest) :
    vendorProjection forecastEnd g =
      if 25 ≤ t1.date - t2.date ∧ t1.date - t2.date ≤ 35 ∧
          |t1.amount - t2.amount| / max (max t1.amount t2.amount) 1 < 1 / 10 then
        if t1.date + (t1.date - t2.date) ≤ forecastEnd then
          some (t1.date + (t1.date - t2.date), t1.amount)
        else none
      else none := by
  have h1 : (sortByDate g).reverse.length = rest.length + 2 := by
    rw [hsort]
    simp only [List.length_cons]
  rw [List.length_reverse, length_sortByDate] at h1
  have hlen : g.length > 1 := by omega
  unfold vendorProjection
  rw [if_pos hlen, hsort]

lemma recurringEventFrom_vendor (forecastEnd : Int)
    (p : String × List DatedAmount) (ev : ForecastEvent)
    (h : recurringEventFrom forecastEnd p = some ev) : ev.vendor = p.1 := by
  unfold recurringEventFrom at h
  rcases hvp : vendorProjection forecastEnd p.2 with _ | da <;> rw [hvp] at h
  · simp at h
  · simp only [Option.map_some'] at h
    rw [← Option.some_inj.mp h]

lemma filter_recurring_not_mem (forecastEnd : Int) (v : String)
    (groups : List (String × List DatedAmount))
    (hnv : v ∉ groups.map Prod.fst) :
    (groups.filterMap (recurringEventFrom forecastEnd)).filter
      (fun ev => ev.vendor == v) = [] := by
  induction groups with
  | nil => rfl
  | cons p rest ih =>
    rw [List.map_cons, List.mem_cons, not_or] at hnv
    rw [List.filterMap_cons]
    rcases h : recurringEventFrom forecastEnd p with _ | ev
    · exact ih hnv.2
    · rw [List.filter_cons_of_neg]
      · exact ih hnv.2
      · have hev := recurringEventFrom_vendor forecastEnd p ev h
        simp [hev]
        exact fun hc => hnv.1 hc.symm

lemma filter_recurring_group (forecastEnd : Int) (v : String)
    (g : List DatedAmount) :
    ∀ groups : List (String × List DatedAmount),
      (groups.map Prod.fst).Nodup → (v, g) ∈ groups →
      (groups.filterMap (recurringEventFrom forecastEnd)).filter
          (fun ev => ev.vendor == v) =
        (recurringEventFrom forecastEnd (v, g)).toList := by
  intro groups
  induction groups with
  | nil => intro _ h; exact absurd h (List.not_mem_nil _)
  | cons p rest ih =>
    intro hnd hmem
    rw [List.map_cons, List.nodup_cons] at hnd
    rcases List.mem_cons.mp hmem with heq | htail
    · have hkey : v ∉ rest.map Prod.fst := by
        have hp := hnd.1
        rw [← heq] at hp
        exact hp
      rw [List.filterMap_cons]
      rcases h : recurringEventFrom forecastEnd (v, g) with _ | ev
      · rw [← heq, h, filter_recurring_not_mem forecastEnd v rest hkey]
        rfl
      · have hev : ev.vendor = v := recurringEventFrom_vendor _ _ _ h
        rw [← heq, h, List.filter_cons_of_pos,
          filter_recurring_not_mem forecastEnd v rest hkey]
        · rfl
        · simp [hev]
    · have hvrest : v ∈ rest.map Prod.fst := List.mem_map.mpr ⟨(v, g), htail, rfl⟩
      have hne : ¬(p.1 = v) := fun hh => hnd.1 (hh ▸ hvrest)
      rw [List.filterMap_cons]
      rcases h : recurringEventFrom forecastEnd p with _ | ev
      · exact ih hnd.2 htail
      · rw [List.filter_cons_of_neg]
        · exact ih hnd.2 htail
        · have hev := recurringEventFrom_vendor _ _ _ h
          simp [hev]
          exact hne

lemma keys_insertGroup (v : String) (e : DatedAmount)
    (acc : List (String × List DatedAmount)) :
    (insertGroup v e acc).map Prod.fst =
      if v ∈ acc.map Prod.fst then acc.map Prod.fst
      else acc.map Prod.fst ++ [v] := by
  induction acc with
  | nil => simp [insertGroup]
  | cons p rest ih =>
    rcases p with ⟨w, es⟩
    by_cases h : v = w
    · subst h
      simp [insertGroup]
    · have hug : insertGroup v e ((w, es) :: rest) = (w, es) :: insertGroup v e rest := by
        simp [insertGroup, h]
      rw [hug, List.map_cons, ih, List.map_cons]
      by_cases hm : v ∈ rest.map Prod.fst
      · rw [if_pos hm, if_pos (List.mem_cons.mpr (Or.inr hm))]
      · rw [if_neg hm, if_neg, List.cons_append]
        intro hc
        rcases List.mem_cons.mp hc with hc | hc
        · exact h hc
        · exact hm hc

lemma nodup_keys_insertGroup (v : String) (e : DatedAmount)
    (acc : List (String × List DatedAmount))
    (h : (acc.map Prod.fst).Nodup) :
    ((insertGroup v e acc).map Prod.fst).Nodup := by
  rw [keys_insertGroup]
  by_cases hm : v ∈ acc.map Prod.fst
  · rw [if_pos hm]; exact h
  · rw [if_neg hm]
    simp [List.nodup_append, h, hm]

lemma nodup_keys_group_aux (l : List TxnRec) :
    ∀ acc : List (String × List DatedAmount), (acc.map Prod.fst).Nodup →
      (((l.foldl (fun acc t =>
            insertGroup t.vendor ⟨t.transactionDate, t.amount⟩ acc) acc)).map
          Prod.fst).Nodup := by
  induction l with
  | nil => intro acc h; simpa using h
  | cons t ts ih =>
    intro acc h
    simp only [List.foldl_cons]
    exact ih _ (nodup_keys_insertGroup _ _ _ h)

lemma nodup_keys_groupByVendor (l : List TxnRec) :
    ((groupByVendor l).map Prod.fst).Nodup :=
  nodup_keys_group_aux l [] (by simp)

/-- The spec's ordered GL-account rule table (spec §4.5), one row per
keyword-set → category rule. -/
def glRuleTable : List (List String × String) :=
  [(["software", "saas", "aws", "google cloud"], "Software & Subscriptions"),
   (["marketing", "advertising"], "Marketing & Advertising"),
   (["office supplies", "staples"], "Office Supplies")]

/-- First-match evaluation of an ordered keyword-table, defaulting to
"Uncategorized Expense": the spec's description of GL assignment. -/
def glFirstMatch (vl : String) : List (List String × String) → String
  | [] => "Uncategorized Expense"
  | (kws, cat) :: rest =>
    if kws.any (fun k => strContains vl k) then cat else glFirstMatch vl rest

/-- The source's nested-if GL assignment agrees with the spec's ordered
first-match rule table. -/
lemma glAccountFor_eq_firstMatch (vendor : Option String) :
    glAccountFor vendor =
      glFirstMatch (strLower (pyOrOptStr vendor "")) glRuleTable := by
  simp only [glAccountFor, glFirstMatch, glRuleTable, List.any_cons, List.any_nil,
    Bool.or_false, Bool.or_assoc]

/-- A transaction schema is produced exactly when the invoice is not in
`Error` status and its `totalAmount` is truthy (present and nonzero). -/
lemma create_schema_isSome_iff (today : Int) (inv : Invoice) :
    (create_transaction_schema_from_invoice today inv).isSome = true ↔
      (inv.processingStatus ≠ "Error" ∧ ∃ q : ℚ, inv.totalAmount = some q ∧ q ≠ 0) := by
  rcases hq : inv.totalAmount with _ | q
  · simp [create_transaction_schema_from_invoice, optAmountTruthy, hq]
  · by_cases hz : q = 0
    · subst hz
      simp [create_transaction_schema_from_invoice, optAmountTruthy, hq]
    · by_cases hE : inv.processingStatus = "Error" <;>
        simp [create_transaction_schema_from_invoice, optAmountTruthy, hq, hE, hz]

end Accountant

namespace Accountant

/-- C1 counterexample: a Processed invoice whose `totalAmount` is present with
the value `0` gets NO ledger entry — the guard
`not invoice_model.totalAmount` treats `0.0` as falsy — contradicting the
claim that a Processed invoice with a non-null total (including 0) gets
exactly one ledger entry. -/
theorem C1_counterexample_zero_total :
    (process_invoice_file 0 "Invoice total 0" true
        (.ok false none (.valid { totalAmount := some 0 }))
        .ok).invoice.processingStatus = "Processed" ∧
    (process_invoice_file 0 "Invoice total 0" true
        (.ok false none (.valid { totalAmount := some 0 }))
        .ok).invoice.totalAmount = some 0 ∧
    (process_invoice_file 0 "Invoice total 0" true
        (.ok false none (.valid { totalAmount := some 0 }))
        .ok).transaction = none := by
  decide

/-- C1 (amended): when transaction persistence succeeds, a ledger entry is
created for an ingested document iff the stored invoice's status is
"Processed" and its `totalAmount` is present and NONZERO (Python truthiness);
in particular Error and Needs-Review invoices never get one, and a Processed
invoice with total 0 or no total gets none. -/
theorem C1_ledger_iff_processed_truthy_total (today : Int) (ocrText : String)
    (hasApiKey : Bool) (resp : GeminiParse) :
    (process_invoice_file today ocrText hasApiKey resp .ok).transaction.isSome = true ↔
      ((process_invoice_file today ocrText hasApiKey resp .ok).invoice.processingStatus
          = "Processed" ∧
        ∃ q : ℚ,
          (process_invoice_file today ocrText hasApiKey resp .ok).invoice.totalAmount
              = some q ∧ q ≠ 0) := by
  by_cases htext : ocrText = ""
  · simp [htext, process_invoice_file]
  · by_cases hst :
      (extract_and_review_invoice_data_with_gemini hasApiKey ocrText resp).processingStatus
        = "Processed"
    · rcases hc : create_transaction_schema_from_invoice today
          (extract_and_review_invoice_data_with_gemini hasApiKey ocrText resp) with _ | t
      · have hnoq : ¬ ∃ q : ℚ,
            (extract_and_review_invoice_data_with_gemini hasApiKey ocrText resp).totalAmount
              = some q ∧ q ≠ 0 := by
          intro hex
          have hsome : (create_transaction_schema_from_invoice today
              (extract_and_review_invoice_data_with_gemini hasApiKey ocrText resp)).isSome
                = true :=
            (create_schema_isSome_iff today _).mpr ⟨by rw [hst]; decide, hex⟩
          rw [hc] at hsome
          exact absurd hsome (by simp)
        simp [process_invoice_file, htext, hst, hc, hnoq]
      · have hq : ∃ q : ℚ,
            (extract_and_review_invoice_data_with_gemini hasApiKey ocrText resp).totalAmount
              = some q ∧ q ≠ 0 :=
          ((create_schema_isSome_iff today _).mp (by rw [hc]; rfl)).2
        simp [process_invoice_file, htext, hst, hc, hq]
    · simp [process_invoice_file, htext, hst]

/-- C1 witness: a Processed invoice with the nonzero total 150 gets a ledger
entry when persistence succeeds. -/
theorem C1_witness_nonzero_total :
    (process_invoice_file 0 "Total Due: 150.00" true
        (.ok false none (.valid { totalAmount := some 150 }))
        .ok).transaction.isSome = true :=
  (C1_ledger_iff_processed_truthy_total 0 "Total Due: 150.00" true
      (.ok false none (.valid { totalAmount := some 150 }))).mpr
    ⟨by decide, 150, by decide, by norm_num⟩

/-- C3: the rule-based fallback strategy (modelled from the spec, absent from
src/) always sets needsReview = true, never extracts line items, subtotal or
tax, computes confidenceScore as (found key fields)/4, and that score lies in
[0,1] with score < 0.75 implying needsReview = true. -/
theorem C3_rule_based_fallback_properties (invoiceNumber : Option String)
    (invoiceDate dueDate : Option Int) (totalAmount : Option ℚ)
    (vendor : Option String) :
    (ruleBasedExtract invoiceNumber invoiceDate dueDate totalAmount vendor).needsReview
        = true ∧
    (ruleBasedExtract invoiceNumber invoiceDate dueDate totalAmount vendor).lineItems
        = [] ∧
    (ruleBasedExtract invoiceNumber invoiceDate dueDate totalAmount vendor).subtotal
        = none ∧
    (ruleBasedExtract invoiceNumber invoiceDate dueDate totalAmount vendor).tax
        = none ∧
    (ruleBasedExtract invoiceNumber invoiceDate dueDate totalAmount
          vendor).confidenceScore
        = (foundCount invoiceNumber invoiceDate totalAmount vendor : ℚ) / 4 ∧
    0 ≤ (ruleBasedExtract invoiceNumber invoiceDate dueDate totalAmount
          vendor).confidenceScore ∧
    (ruleBasedExtract invoiceNumber invoiceDate dueDate totalAmount
          vendor).confidenceScore ≤ 1 ∧
    ((ruleBasedExtract invoiceNumber invoiceDate dueDate totalAmount
          vendor).confidenceScore < 3 / 4 →
      (ruleBasedExtract invoiceNumber invoiceDate dueDate totalAmount
          vendor).needsReview = true) := by
  have hcount : foundCount invoiceNumber invoiceDate totalAmount vendor ≤ 4 := by
    unfold foundCount
    split_ifs <;> omega
  have hle : ((foundCount invoiceNumber invoiceDate totalAmount vendor : ℚ) / 4) ≤ 1 := by
    rw [div_le_one (by norm_num : (0 : ℚ) < 4)]
    exact_mod_cast hcount
  have hge : (0 : ℚ) ≤ (foundCount invoiceNumber invoiceDate totalAmount vendor : ℚ) / 4 := by
    positivity
  refine ⟨by simp [ruleBasedExtract], rfl, rfl, rfl, rfl, hge, hle, fun _ => ?_⟩
  simp [ruleBasedExtract]

/-- C3 witness: the strategy evaluated with no fields found — confidence 0,
below 0.75, and needsReview is true. -/
theorem C3_witness :
    (ruleBasedExtract none none none none none).confidenceScore < 3 / 4 ∧
    (ruleBasedExtract none none none none none).needsReview = true := by
  have h := C3_rule_based_fallback_properties none none none none none
  refine ⟨?_, h.1⟩
  rw [h.2.2.2.2.1]
  norm_num [foundCount]

/-- C5: whenever Pydantic validation of the mapped fields fails, the
extraction result has status "Error" — even when the AI reported
needsReview = false — so it is never returned as "Processed". -/
theorem C5_validation_failure_forces_error (hasApiKey : Bool) (text : String)
    (nr : Bool) (rr : Option (Option String)) (msg : String) :
    (extract_and_review_invoice_data_with_gemini hasApiKey text
        (.ok nr rr (.invalid msg))).processingStatus = "Error" ∧
    (extract_and_review_invoice_data_with_gemini hasApiKey text
        (.ok nr rr (.invalid msg))).processingStatus ≠ "Processed" := by
  cases hasApiKey <;>
    simp [extract_and_review_invoice_data_with_gemini]

/-- C6: for a successfully parsed, structurally valid AI extraction the
classifier yields "Needs Review" (the spec's NeedsReview state) with
errorMessage the supplied review reason — or the generic placeholder
"Reason not provided by AI." when the response carried no reviewReason key —
when the strategy-level needsReview is true, and "Processed" otherwise; the
status produced lies in the closed enumeration
{Pending, Processed, Needs Review, Error}. -/
theorem C6_status_classifier (text : String) (nr : Bool)
    (rr : Option (Option String)) (f : ExtractedFields) :
    (nr = true →
      (extract_and_review_invoice_data_with_gemini true text
          (.ok nr rr (.valid f))).processingStatus = "Needs Review" ∧
      (extract_and_review_invoice_data_with_gemini true text
          (.ok nr rr (.valid f))).errorMessage =
        (match rr with
         | none => some "Reason not provided by AI."
         | some v => v)) ∧
    (nr = false →
      (extract_and_review_invoice_data_with_gemini true text
          (.ok nr rr (.valid f))).processingStatus = "Processed") ∧
    (extract_and_review_invoice_data_with_gemini true text
        (.ok nr rr (.valid f))).processingStatus ∈
      (["Pending", "Processed", "Needs Review", "Error"] : List String) := by
  cases nr <;>
    simp [extract_and_review_invoice_data_with_gemini]

/-- C6 witness: a reviewed extraction with an explicit reason is classified
"Needs Review" and carries that reason. -/
theorem C6_witness :
    (extract_and_review_invoice_data_with_gemini true "some ocr text"
        (.ok true (some (some "Ambiguous invoice date format"))
          (.valid {}))).processingStatus = "Needs Review" ∧
    (extract_and_review_invoice_data_with_gemini true "some ocr text"
        (.ok true (some (some "Ambiguous invoice date format"))
          (.valid {}))).errorMessage = some "Ambiguous invoice date format" := by
  have h := C6_status_classifier "some ocr text" true
    (some (some "Ambiguous invoice date format")) {}
  exact ⟨(h.1 rfl).1, (h.1 rfl).2⟩

/-- C7: every derived ledger entry has its glAccount determined by the spec's
ordered case-insensitive keyword table with first match winning and default
"Uncategorized Expense", entryType "Debit", and description
"Invoice {invoiceNumber or N/A}". -/
theorem C7_ledger_deriver_fields (today : Int) (inv : Invoice)
    (t : TransactionCreate)
    (h : create_transaction_schema_from_invoice today inv = some t) :
    t.glAccount = glFirstMatch (strLower (pyOrOptStr inv.vendor "")) glRuleTable ∧
    t.entryType = "Debit" ∧
    t.description = some ("Invoice " ++ pyOrOptStr inv.invoiceNumber "N/A") := by
  unfold create_transaction_schema_from_invoice at h
  split at h
  · exact absurd h (by simp)
  · obtain rfl : _ = t := Option.some_inj.mp h
    exact ⟨glAccountFor_eq_firstMatch inv.vendor, rfl, rfl⟩

/-- C7 witness: the AWS invoice of spec scenario B derives a Debit entry in
"Software & Subscriptions". -/
theorem C7_witness :
    ({ invoiceId := "", transactionDate := 5, vendor := "AWS",
       description := some "Invoice 123", amount := 150, currency := "USD",
       paymentMethod := none, glAccount := "Software & Subscriptions",
       entryType := "Debit", tags := [] } : TransactionCreate).glAccount =
        glFirstMatch (strLower (pyOrOptStr (some "AWS") "")) glRuleTable ∧
    ({ invoiceId := "", transactionDate := 5, vendor := "AWS",
       description := some "Invoice 123", amount := 150, currency := "USD",
       paymentMethod := none, glAccount := "Software & Subscriptions",
       entryType := "Debit", tags := [] } : TransactionCreate).entryType = "Debit" ∧
    ({ invoiceId := "", transactionDate := 5, vendor := "AWS",
       description := some "Invoice 123", amount := 150, currency := "USD",
       paymentMethod := none, glAccount := "Software & Subscriptions",
       entryType := "Debit", tags := [] } : TransactionCreate).description =
        some ("Invoice " ++ pyOrOptStr (some "123") "N/A") :=
  C7_ledger_deriver_fields 5
    { processingStatus := "Processed", totalAmount := some 150,
      vendor := some "AWS", invoiceNumber := some "123" }
    _ (by decide)

/-- C8: when the derived ledger entry fails to persist, the owning invoice is
demoted from Processed to Error with the persistence failure message, and
this is the only way an already-Processed record is demoted: with no
persistable schema or with successful persistence the record stays
Processed. -/
theorem C8_persistence_failure_demotes (today : Int) (ocrText : String)
    (hasApiKey : Bool) (resp : GeminiParse) (msg : String)
    (hproc : (extract_and_review_invoice_data_with_gemini hasApiKey ocrText
        resp).processingStatus = "Processed")
    (htext : ocrText ≠ "") :
    ((create_transaction_schema_from_invoice today
          (extract_and_review_invoice_data_with_gemini hasApiKey ocrText resp)).isSome
        = true →
      (process_invoice_file today ocrText hasApiKey resp
          (.fail msg)).invoice.processingStatus = "Error" ∧
      (process_invoice_file today ocrText hasApiKey resp
          (.fail msg)).invoice.errorMessage =
        some ("Transaction Creation Error: " ++ msg) ∧
      (process_invoice_file today ocrText hasApiKey resp
          (.fail msg)).transaction = none) ∧
    (create_transaction_schema_from_invoice today
          (extract_and_review_invoice_data_with_gemini hasApiKey ocrText resp) = none →
      (process_invoice_file today ocrText hasApiKey resp
          (.fail msg)).invoice.processingStatus = "Processed") ∧
    (process_invoice_file today ocrText hasApiKey resp
        .ok).invoice.processingStatus = "Processed" := by
  refine ⟨?_, ?_, ?_⟩
  · intro hsome
    rcases hc : create_transaction_schema_from_invoice today
        (extract_and_review_invoice_data_with_gemini hasApiKey ocrText resp) with _ | t
    · rw [hc] at hsome
      exact absurd hsome (by simp)
    · simp [process_invoice_file, htext, hproc, hc]
  · intro hc
    simp [process_invoice_file, htext, hproc, hc]
  · rcases hc : create_transaction_schema_from_invoice today
        (extract_and_review_invoice_data_with_gemini hasApiKey ocrText resp) with _ | t <;>
      simp [process_invoice_file, htext, hproc, hc]

/-- C8 witness: a Processed invoice whose transaction hits the uniqueness
constraint is demoted to Error with the persistence failure message. -/
theorem C8_witness :
    (process_invoice_file 0 "invoice text" true
        (.ok false none (.valid { totalAmount := some 100 }))
        (.fail "Duplicate entry")).invoice.processingStatus = "Error" ∧
    (process_invoice_file 0 "invoice text" true
        (.ok false none (.valid { totalAmount := some 100 }))
        (.fail "Duplicate entry")).invoice.errorMessage =
      some "Transaction Creation Error: Duplicate entry" := by
  have h := C8_persistence_failure_demotes 0 "invoice text" true
    (.ok false none (.valid { totalAmount := some 100 })) "Duplicate entry"
    (by decide) (by decide)
  have h2 := h.1 (by decide)
  exact ⟨h2.1, h2.2.1⟩

/-- C9: when text recovery yields the empty string, the pipeline
short-circuits: the invoice record is created with status "Error" and the
descriptive OCR message, no extraction strategy is invoked, and no ledger
entry is created. -/
theorem C9_empty_ocr_short_circuit (today : Int) (hasApiKey : Bool)
    (resp : GeminiParse) (txPersist : PersistOutcome) :
    (process_invoice_file today "" hasApiKey resp
        txPersist).invoice.processingStatus = "Error" ∧
    (process_invoice_file today "" hasApiKey resp
        txPersist).invoice.errorMessage =
      some "OCR Error: No text could be extracted." ∧
    (process_invoice_file today "" hasApiKey resp txPersist).transaction = none ∧
    (process_invoice_file today "" hasApiKey resp
        txPersist).extractionInvoked = false := by
  simp [process_invoice_file]

/-- C10: no LineItem is ever persisted by the pipeline, and — because the
creation schema `InvoiceDataCreate` has no lineItems field — the processing
result is unchanged under replacing the line items the AI extracted by any
other list: they are dropped before the record is created. -/
theorem C10_line_items_dropped (today : Int) (text : String) (hasApiKey : Bool)
    (resp : GeminiParse) (txPersist : PersistOutcome) (nr : Bool)
    (rr : Option (Option String)) (f : ExtractedFields) (li : List LineItem) :
    (process_invoice_file today text hasApiKey resp
        txPersist).persistedLineItems = [] ∧
    process_invoice_file today text hasApiKey (.ok nr rr (.valid f)) txPersist =
      process_invoice_file today text hasApiKey
        (.ok nr rr (.valid { f with lineItems := li })) txPersist := by
  constructor
  · simp only [process_invoice_file]
    split
    · rfl
    · split
      · split
        · split <;> rfl
        · rfl
      · rfl
  · rfl

/-- C2: in the cash-flow forecast, for a vendor bucket of non-revenue ledger
entries from the 60-day lookback window whose two most recent entries are A1
at D1 and A2 at the later date D2, an event of type
"Projected Recurring Expense" with amount A2 at date D2 + (D2 - D1) is
produced for that vendor exactly when 25 ≤ D2 - D1 ≤ 35, the relative amount
difference is below 0.10, and the projected date is at most the forecast end
date; otherwise no such event is produced for that vendor.  (`e2` is the most
recent entry, i.e. the claim's (A2, D2); `e1` the one before it.) -/
theorem C2_recurring_expense_projection (today daysAhead : Int)
    (txns : List TxnRec) (v : String) (g : List DatedAmount)
    (hmem : (v, g) ∈ groupByVendor (nonRevenueRecent today txns))
    (e2 e1 : DatedAmount) (rest : List DatedAmount)
    (hsort : (sortByDate g).reverse = e2 :: e1 :: rest)
    (hlt : e1.date < e2.date) :
    (projectedOutflows today daysAhead txns).filter (fun ev => ev.vendor == v) =
      (if 25 ≤ e2.date - e1.date ∧ e2.date - e1.date ≤ 35 ∧
          |e2.amount - e1.amount| / max (max e2.amount e1.amount) 1 < 1 / 10 ∧
          e2.date + (e2.date - e1.date) ≤ today + daysAhead then
        [{ date := e2.date + (e2.date - e1.date), vendor := v,
           amount := e2.amount, type := "Projected Recurring Expense" }]
      else []) := by
  have hnd := nodup_keys_groupByVendor (nonRevenueRecent today txns)
  have hfil := filter_recurring_group (today + daysAhead) v g _ hnd hmem
  have hunf : recurringEventFrom (today + daysAhead) (v, g) =
      (vendorProjection (today + daysAhead) g).map fun da =>
        ({ date := da.1, vendor := v, amount := da.2,
           type := "Projected Recurring Expense" } : ForecastEvent) := rfl
  have heval := vendorProjection_eval (today + daysAhead) g e2 e1 rest hsort
  rw [show projectedOutflows today daysAhead txns =
      (groupByVendor (nonRevenueRecent today txns)).filterMap
        (recurringEventFrom (today + daysAhead)) from rfl]
  rw [hfil, hunf, heval]
  by_cases h1 : 25 ≤ e2.date - e1.date ∧ e2.date - e1.date ≤ 35 ∧
      |e2.amount - e1.amount| / max (max e2.amount e1.amount) 1 < 1 / 10
  · by_cases h2 : e2.date + (e2.date - e1.date) ≤ today + daysAhead
    · rw [if_pos h1, if_pos h2, if_pos ⟨h1.1, h1.2.1, h1.2.2, h2⟩]
      rfl
    · rw [if_pos h1, if_neg h2, if_neg]
      · rfl
      · rintro ⟨_, _, _, hc⟩
        exact h2 hc
  · rw [if_neg h1, if_neg]
    · rfl
    · rintro ⟨ha, hb, hc, _⟩
      exact h1 ⟨ha, hb, hc⟩

/-- C2 witness: spec scenario C — Staples entries of 100 on day 5 and 104 on
day 35, today = day 40, 30-day horizon: the forecaster projects 104 at
day 65. -/
theorem C2_witness_staples :
    (projectedOutflows 40 30
        [{ vendor := "Staples", transactionDate := 5, amount := 100,
           glAccount := "Office Supplies" },
         { vendor := "Staples", transactionDate := 35, amount := 104,
           glAccount := "Office Supplies" }]).filter
        (fun ev => ev.vendor == "Staples") =
      [{ date := 65, vendor := "Staples", amount := 104,
         type := "Projected Recurring Expense" }] := by
  have h := C2_recurring_expense_projection 40 30
    [{ vendor := "Staples", transactionDate := 5, amount := 100,
       glAccount := "Office Supplies" },
     { vendor := "Staples", transactionDate := 35, amount := 104,
       glAccount := "Office Supplies" }]
    "Staples" [⟨5, 100⟩, ⟨35, 104⟩] (by decide) ⟨35, 104⟩ ⟨5, 100⟩ []
    (by decide) (by decide)
  rw [h]
  have hm : max (max (104 : ℚ) 100) 1 = 104 := by
    rw [max_eq_left (by norm_num : (100 : ℚ) ≤ 104),
      max_eq_left (by norm_num : (1 : ℚ) ≤ 104)]
  have ha : |(104 : ℚ) - 100| = 4 := by
    rw [show (104 : ℚ) - 100 = 4 by norm_num]
    exact abs_of_pos (by norm_num)
  have hcond : (25 : ℤ) ≤ 35 - 5 ∧ (35 : ℤ) - 5 ≤ 35 ∧
      |(104 : ℚ) - 100| / max (max (104 : ℚ) 100) 1 < 1 / 10 ∧
      (35 : ℤ) + (35 - 5) ≤ 40 + 30 := by
    refine ⟨by norm_num, by norm_num, ?_, by norm_num⟩
    rw [hm, ha]
    norm_num
  rw [if_pos hcond]
  norm_num

lemma lookup_addToKey (k : String) (v : ℚ) (c : String) :
    ∀ d : List (String × ℚ),
      (addToKey k v d).lookup c =
        if c = k then some ((d.lookup c).getD 0 + v) else d.lookup c := by
  intro d
  induction d with
  | nil =>
    by_cases h : c = k
    · subst h
      simp [addToKey, List.lookup]
    · have hb : (c == k) = false := beq_eq_false_iff_ne.mpr h
      simp [addToKey, List.lookup, h, hb]
  | cons p rest ih =>
    rcases p with ⟨k', v'⟩
    by_cases hk : k = k'
    · subst hk
      by_cases h : c = k
      · subst h
        simp [addToKey, List.lookup]
      · have hb : (c == k) = false := beq_eq_false_iff_ne.mpr h
        simp [addToKey, List.lookup, h, hb]
    · have hu : addToKey k v ((k', v') :: rest) = (k', v') :: addToKey k v rest := by
        simp [addToKey, hk]
      by_cases h : c = k'
      · subst h
        have hck : ¬(c = k) := fun hh => hk hh.symm
        simp [hu, List.lookup, hck]
      · have hb : (c == k') = false := beq_eq_false_iff_ne.mpr h
        simp only [hu, List.lookup, hb, ih]

lemma lookupD_sumByKey_aux (l : List (String × ℚ)) :
    ∀ (acc : List (String × ℚ)) (c : String),
      ((l.foldl (fun d kv => addToKey kv.1 kv.2 d) acc).lookup c).getD 0 =
        (acc.lookup c).getD 0 +
          ((l.filter fun kv => kv.1 == c).map Prod.snd).sum := by
  induction l with
  | nil => intro acc c; simp
  | cons kv l ih =>
    intro acc c
    simp only [List.foldl_cons]
    rw [ih]
    by_cases h : kv.1 = c
    · rw [lookup_addToKey, if_pos h.symm, List.filter_cons_of_pos (by simp [h])]
      simp only [Option.getD_some, List.map_cons, List.sum_cons]
      ring
    · rw [lookup_addToKey, if_neg (fun hh => h hh.symm),
        List.filter_cons_of_neg (by simp [h])]

/-- The actual-spend figure the budget report reads for a category is the sum
of the amounts of the ledger entries whose transactionDate lies in the
inclusive range and whose glAccount is that category. -/
lemma actual_spend_eq (txns : List TxnRec) (startD endD : Int) (c : String) :
    ((get_spending_by_category_for_period txns startD endD).lookup c).getD 0 =
      (((txns.filter fun t =>
            decide (startD ≤ t.transactionDate ∧ t.transactionDate ≤ endD)).filter
          fun t => t.glAccount == c).map fun t => t.amount).sum := by
  unfold get_spending_by_category_for_period sumByKey
  rw [lookupD_sumByKey_aux]
  simp only [List.lookup_nil, Option.getD_none, zero_add]
  rw [List.filter_map, List.map_map]
  rfl

lemma dictInsert_ne_nil (k : String) (v : ℚ) (d : List (String × ℚ)) :
    dictInsert k v d ≠ [] := by
  cases d with
  | nil => simp [dictInsert]
  | cons p rest =>
    rcases p with ⟨k', v'⟩
    by_cases h : k = k' <;> simp [dictInsert, h]

lemma dictOf_aux_ne_nil (l : List (String × ℚ)) :
    ∀ acc : List (String × ℚ), acc ≠ [] →
      l.foldl (fun d kv => dictInsert kv.1 kv.2 d) acc ≠ [] := by
  induction l with
  | nil => intro acc h; simpa using h
  | cons kv rest ih =>
    intro acc _
    simp only [List.foldl_cons]
    exact ih _ (dictInsert_ne_nil kv.1 kv.2 acc)

lemma dictOf_ne_nil (l : List (String × ℚ)) (h : l ≠ []) : dictOf l ≠ [] := by
  cases l with
  | nil => exact absurd rfl h
  | cons kv rest =>
    rw [dictOf, List.foldl_cons]
    exact dictOf_aux_ne_nil rest _ (dictInsert_ne_nil kv.1 kv.2 [])

lemma lookup_map_row (g : String → ReportRow) (c : String) :
    ∀ cats : List String, c ∈ cats →
      (cats.map fun x => (x, g x)).lookup c = some (g c) := by
  intro cats
  induction cats with
  | nil => intro h; exact absurd h (List.not_mem_nil _)
  | cons a rest ih =>
    intro h
    by_cases hac : c = a
    · subst hac
      simp [List.lookup]
    · rcases List.mem_cons.mp h with h1 | h2
      · exact absurd h1 hac
      · have hb : (c == a) = false := beq_eq_false_iff_ne.mpr hac
        simp only [List.map_cons, List.lookup, hb]
        exact ih h2

/-- C4: the budget report maps every category present in the period's budget
set or the actual-spend set (sum of ledger-entry amounts with transactionDate
in the inclusive range, grouped by glAccount) to a row with the budget
amount, the actual spend rounded to 2 decimals, and variance
budget - actual when a budget exists for the category and -actual otherwise,
also rounded; when no budget entries exist for the period the report is empty
with an informational note. -/
theorem C4_budget_report (budgets : List BudgetRec) (txns : List TxnRec)
    (startD endD : Int) :
    (budgets = [] →
      get_budget_report_endpoint budgets txns startD endD =
        { report := [], message := some "No budgets found for this period." }) ∧
    (budgets ≠ [] → ∀ c : String,
      (c ∈ (dictOf (budgets.map fun b => (b.category, b.amount))).map Prod.fst ∨
          c ∈ (get_spending_by_category_for_period txns startD endD).map Prod.fst) →
      (get_budget_report_endpoint budgets txns startD endD).report.lookup c =
        some
          { budget := (dictOf (budgets.map fun b => (b.category, b.amount))).lookup c,
            actual := round2
              ((((txns.filter fun t =>
                    decide (startD ≤ t.transactionDate ∧ t.transactionDate ≤ endD)).filter
                  fun t => t.glAccount == c).map fun t => t.amount).sum),
            variance := round2
              (match (dictOf (budgets.map fun b => (b.category, b.amount))).lookup c with
               | some b =>
                 b - (((txns.filter fun t =>
                       decide (startD ≤ t.transactionDate ∧ t.transactionDate ≤ endD)).filter
                     fun t => t.glAccount == c).map fun t => t.amount).sum
               | none =>
                 -((((txns.filter fun t =>
                       decide (startD ≤ t.transactionDate ∧ t.transactionDate ≤ endD)).filter
                     fun t => t.glAccount == c).map fun t => t.amount).sum)) } ∧
      (get_budget_report_endpoint budgets txns startD endD).message = none) := by
  constructor
  · intro h
    subst h
    rfl
  · intro hb c hc
    have hmapne : budgets.map (fun b => (b.category, b.amount)) ≠ [] := by
      cases budgets with
      | nil => exact absurd rfl hb
      | cons b bs => simp
    have hne : dictOf (budgets.map fun b => (b.category, b.amount)) ≠ [] :=
      dictOf_ne_nil _ hmapne
    have hcmem : c ∈
        ((dictOf (budgets.map fun b => (b.category, b.amount))).map Prod.fst ++
          (get_spending_by_category_for_period txns startD endD).map Prod.fst).dedup := by
      rw [List.mem_dedup, List.mem_append]
      exact hc
    constructor
    · simp only [get_budget_report_endpoint]
      rw [if_neg hne]
      rw [lookup_map_row
        (budgetReportRow (dictOf (budgets.map fun b => (b.category, b.amount)))
          (get_spending_by_category_for_period txns startD endD)) c _ hcmem]
      simp only [budgetReportRow]
      rw [actual_spend_eq]
    · simp only [get_budget_report_endpoint]
      rw [if_neg hne]

/-- C4 witness: with one budget (Office Supplies, 500) and in-range spending
of 100 on Office Supplies (a Rent spend of 10 in range and one outside it),
the Office Supplies row reads budget 500, actual round2 100, variance
round2 400, with no informational message. -/
theorem C4_witness :
    (get_budget_report_endpoint
        [{ category := "Office Supplies", periodType := "monthly",
           periodValue := "2024-01", amount := 500 }]
        [{ vendor := "Staples", transactionDate := 5, amount := 100,
           glAccount := "Office Supplies" },
         { vendor := "Y", transactionDate := 7, amount := 10, glAccount := "Rent" },
         { vendor := "X", transactionDate := 40, amount := 10, glAccount := "Rent" }]
        1 31).report.lookup "Office Supplies" =
      some { budget := some 500, actual := round2 100, variance := round2 400 } ∧
    (get_budget_report_endpoint
        [{ category := "Office Supplies", periodType := "monthly",
           periodValue := "2024-01", amount := 500 }]
        [{ vendor := "Staples", transactionDate := 5, amount := 100,
           glAccount := "Office Supplies" },
         { vendor := "Y", transactionDate := 7, amount := 10, glAccount := "Rent" },
         { vendor := "X", transactionDate := 40, amount := 10, glAccount := "Rent" }]
        1 31).message = none := by
  have h := (C4_budget_report
      [{ category := "Office Supplies", periodType := "monthly",
         periodValue := "2024-01", amount := 500 }]
      [{ vendor := "Staples", transactionDate := 5, amount := 100,
         glAccount := "Office Supplies" },
       { vendor := "Y", transactionDate := 7, amount := 10, glAccount := "Rent" },
       { vendor := "X", transactionDate := 40, amount := 10, glAccount := "Rent" }]
      1 31).2 (by simp) "Office Supplies" (Or.inl (by decide))
  refine ⟨?_, h.2⟩
  rw [h.1]
  norm_num [dictOf, dictInsert, List.lookup, List.filter_cons, List.filter_nil,
    List.sum_cons, List.sum_nil,
    show ¬("Rent" = "Office Supplies") from by decide]

end Accountant
